import Mathlib

/-!
Shallow embedding of the Pharaohs football-scouting backend (Node/Express +
MySQL) and proofs about its domain operations.

Database tables are modelled as Lean lists of row structures inside a `DB`
record; each controller function is translated into a pure Lean function from
a `DB` and request data to a response value plus the successor `DB`.  SQL
`SELECT ... WHERE` becomes `List.find?` / `List.filter`, `INSERT` appends a
row, `UPDATE` maps over rows, `DELETE` filters rows.  External collaborators
(bcrypt comparison, the Cloudinary media store) are passed in as explicit
parameters so that their outcome can be quantified over.  JavaScript numbers
that the code validates to be integers are modelled as `Int`/`Nat`; the
rating computation, which the code performs on JS floats whose operations the
spec fixes in order and constants, is modelled over `Rat` with the same
operation order.
-/

namespace Pharaohs

/-- `users.role` column. -/
inductive Role
  | player
  | scout
  | admin
  deriving DecidableEq

/-- `users.status` column. -/
inductive UserStatus
  | active
  | inactive
  | suspended
  deriving DecidableEq

/-- Row of the `users` table (password stores the bcrypt hash). -/
structure User where
  id : Nat
  name : String
  email : String
  password : String
  role : Role
  status : UserStatus
  deriving DecidableEq

/-- `videos.type` column: `image` or `video`. -/
inductive MediaType
  | image
  | video
  deriving DecidableEq

/-- Row of the `videos` table. -/
structure Video where
  id : Nat
  player_id : Nat
  url : String
  description : Option String
  type : MediaType
  public_id : Option String
  deriving DecidableEq

/-- Row of the `likes` table. -/
structure Like where
  user_id : Nat
  video_id : Nat
  deriving DecidableEq

/-- Row of the `comments` table. -/
structure CommentRow where
  user_id : Nat
  video_id : Nat
  comment : String
  deriving DecidableEq

/-- `invitations.status` column. -/
inductive InvStatus
  | pending
  | accepted
  | declined
  deriving DecidableEq

/-- Row of the `invitations` table. -/
structure Invitation where
  id : Nat
  tryout_id : Nat
  player_id : Nat
  status : InvStatus
  deriving DecidableEq

/-- Row of the `tryouts` table. -/
structure Tryout where
  id : Nat
  scout_id : Nat
  name : String
  location : String
  deriving DecidableEq

/-- Row of the `notifications` table (is_read and timestamps elided). -/
structure NotificationRow where
  user_id : Nat
  message : String
  deriving DecidableEq

/-- Row of the `player_stats` table. -/
structure PlayerStatsRow where
  player_id : Nat
  matches_played : Int
  goals : Int
  assists : Int
  yellow_cards : Int
  red_cards : Int
  deriving DecidableEq

/-- Row of the `player_profiles` table (only the columns the claims need). -/
structure PlayerProfile where
  user_id : Nat
  rating : Rat
  deriving DecidableEq

/-- Row of the `system_logs` table. -/
structure SystemLogRow where
  user_id : Nat
  action : String
  entity_type : String
  entity_id : Nat
  deriving DecidableEq

/-- The relational store. -/
structure DB where
  users : List User
  videos : List Video
  likes : List Like
  comments : List CommentRow
  invitations : List Invitation
  tryouts : List Tryout
  notifications : List NotificationRow
  player_stats : List PlayerStatsRow
  player_profiles : List PlayerProfile
  system_logs : List SystemLogRow
  deriving DecidableEq

/-- `SELECT id FROM videos WHERE id = ?`. -/
def findVideo (db : DB) (videoId : Nat) : Option Video :=
  db.videos.find? fun v => v.id == videoId

/-- `SELECT id FROM likes WHERE user_id = ? AND video_id = ?`. -/
def findLike (db : DB) (userId videoId : Nat) : Option Like :=
  db.likes.find? fun l => l.user_id == userId && l.video_id == videoId

/-- `SELECT COUNT(*) FROM likes WHERE video_id = ?`. -/
def likeCountOf (db : DB) (videoId : Nat) : Nat :=
  (db.likes.filter fun l => l.video_id == videoId).length

/-- `SELECT * FROM users WHERE id = ?` (first row). -/
def findUser (db : DB) (userId : Nat) : Option User :=
  db.users.find? fun u => u.id == userId

/-- JavaScript `x || dflt` on a nullable string: null and "" are falsy. -/
def jsOr (s : Option String) (dflt : String) : String :=
  match s with
  | none => dflt
  | some t => if t = "" then dflt else t

/-- JavaScript `String.prototype.trim`: strip leading and trailing
whitespace (modelled structurally over the character list so that it
evaluates inside the kernel). -/
def jsTrim (s : String) : String :=
  String.mk (((s.data.dropWhile Char.isWhitespace).reverse.dropWhile
    Char.isWhitespace).reverse)

/-! ## Performance rating (part_003 `updatePerformanceStats`) -/

/-- The rating computation of `updatePerformanceStats` (part_003 lines
1224-1237), operation for operation:
`numerator = (goals * 2) + assists - yellow_cards - (red_cards * 3)`,
`rawRating = numerator / matches_played`,
`scaledRating = (rawRating + 3) / 6 * 4 + 1`,
`rating = Math.max(1, Math.min(5, scaledRating))`, defaulting to 1 when
`matches_played` is not positive. -/
def computeRating (matches_played goals assists yellow_cards red_cards : Int) : Rat :=
  if matches_played > 0 then
    let numerator : Rat := (goals : Rat) * 2 + (assists : Rat)
      - (yellow_cards : Rat) - (red_cards : Rat) * 3
    let rawRating : Rat := numerator / (matches_played : Rat)
    let scaledRating : Rat := (rawRating + 3) / 6 * 4 + 1
    max 1 (min 5 scaledRating)
  else 1

/-- clamp(x, lo, hi) as the spec writes it. -/
def clampQ (x lo hi : Rat) : Rat :=
  max lo (min hi x)

/-- The rating formula exactly as the spec's words give it:
`clamp(((2*goals + assists - yellow_cards - 3*red_cards)/matches_played + 3)/6*4 + 1, 1, 5)`
when `matches_played > 0`, and `1` when `matches_played = 0`. -/
def specRating (matches_played goals assists yellow_cards red_cards : Int) : Rat :=
  if matches_played > 0 then
    clampQ (((2 * (goals : Rat) + (assists : Rat) - (yellow_cards : Rat)
      - 3 * (red_cards : Rat)) / (matches_played : Rat) + 3) / 6 * 4 + 1) 1 5
  else 1

/-- Request body of `updatePerformanceStats`: each field may be absent. -/
structure StatsRequest where
  matches_played : Option Int
  goals : Option Int
  assists : Option Int
  yellow_cards : Option Int
  red_cards : Option Int
  deriving DecidableEq

/-- Result of `updatePerformanceStats`: HTTP status and successor store. -/
structure StatsResult where
  status : Nat
  db : DB
  deriving DecidableEq

/-- part_003 lines 1204-1278: validate that all five fields are present and
non-negative integers (400 otherwise), compute the rating, upsert the
`player_stats` row, then persist the rating onto `player_profiles`. -/
def updatePerformanceStats (db : DB) (playerId : Nat) (req : StatsRequest) : StatsResult :=
  match req.matches_played, req.goals, req.assists, req.yellow_cards, req.red_cards with
  | some m, some g, some a, some y, some r =>
    if m < 0 || g < 0 || a < 0 || y < 0 || r < 0 then
      { status := 400, db := db }
    else
      let rating := computeRating m g a y r
      let stats' :=
        if (db.player_stats.find? fun s => s.player_id == playerId).isSome then
          db.player_stats.map fun s =>
            if s.player_id == playerId then
              { s with matches_played := m, goals := g, assists := a,
                       yellow_cards := y, red_cards := r }
            else s
        else
          db.player_stats ++ [⟨playerId, m, g, a, y, r⟩]
      let profiles' := db.player_profiles.map fun p =>
        if p.user_id == playerId then { p with rating := rating } else p
      { status := 200,
        db := { db with player_stats := stats', player_profiles := profiles' } }
  | _, _, _, _, _ => { status := 400, db := db }

/-! ## Likes and comments (part_003 `likeVideo`, `unlikeVideo`, `addComment`) -/

/-- Response of `likeVideo` / `unlikeVideo`.  `likeCount` is `none` when the
JSON body carries no like count. -/
structure LikeResponse where
  status : Nat
  message : String
  alreadyLiked : Bool
  alreadyUnliked : Bool
  likeCount : Option Nat
  deriving DecidableEq

/-- Message built by `NotificationUtil.createLikeNotification` from the
`videoResult` join row (part_003 lines 229-233 with notification.util.js
line 39); `description || 'your video'` is applied at the call site, then
`videoTitle || 'Untitled'` inside the utility. -/
def likeMessage (likerName : String) (description : Option String) : String :=
  likerName ++ " liked your video: " ++ jsOr (some (jsOr description "your video")) "Untitled"

/-- Message built by `NotificationUtil.createCommentNotification`
(part_003 lines 378-382 with notification.util.js line 27). -/
def commentMessage (commenterName : String) (description : Option String) : String :=
  commenterName ++ " commented on your video: "
    ++ jsOr (some (jsOr description "your video")) "Untitled"

/-- part_003 lines 189-250.  `videoId` is `none` when the request body lacks
it (JS falsy check).  Steps: 400 on missing id; 404 when the video does not
exist; duplicate like answers 200 `alreadyLiked` with no count and no write;
otherwise the like row is inserted, a notification is written to the video
owner when the liker is a different user and the liker's user row exists
(the SQL join against `users` yields no row otherwise), and the recomputed
count is returned with 201. -/
def likeVideo (db : DB) (userId : Nat) (videoId : Option Nat) : LikeResponse × DB :=
  match videoId with
  | none =>
    ({ status := 400, message := "Video ID is required",
       alreadyLiked := false, alreadyUnliked := false, likeCount := none }, db)
  | some vid =>
    match findVideo db vid with
    | none =>
      ({ status := 404, message := "Video not found",
         alreadyLiked := false, alreadyUnliked := false, likeCount := none }, db)
    | some v =>
      if (findLike db userId vid).isSome then
        ({ status := 200, message := "Already liked this video",
           alreadyLiked := true, alreadyUnliked := false, likeCount := none }, db)
      else
        let db1 := { db with likes := db.likes ++ [⟨userId, vid⟩] }
        let db2 :=
          match findUser db userId with
          | some u =>
            if v.player_id != userId then
              { db1 with notifications :=
                  db1.notifications ++ [⟨v.player_id, likeMessage u.name v.description⟩] }
            else db1
          | none => db1
        ({ status := 201, message := "Liked video",
           alreadyLiked := false, alreadyUnliked := false,
           likeCount := some (likeCountOf db2 vid) }, db2)

/-- part_003 lines 253-298.  Missing id gives 400, missing video 404, a
not-previously-liked video answers 200 `alreadyUnliked` with no count and no
write, otherwise the like row is deleted and the recomputed count returned. -/
def unlikeVideo (db : DB) (userId : Nat) (videoId : Option Nat) : LikeResponse × DB :=
  match videoId with
  | none =>
    ({ status := 400, message := "Video ID is required",
       alreadyLiked := false, alreadyUnliked := false, likeCount := none }, db)
  | some vid =>
    match findVideo db vid with
    | none =>
      ({ status := 404, message := "Video not found",
         alreadyLiked := false, alreadyUnliked := false, likeCount := none }, db)
    | some _ =>
      if (findLike db userId vid).isNone then
        ({ status := 200, message := "Not liked",
           alreadyLiked := false, alreadyUnliked := true, likeCount := none }, db)
      else
        let likes1 := db.likes.filter fun l => !(l.user_id == userId && l.video_id == vid)
        let db1 := { db with likes := likes1 }
        ({ status := 200, message := "Unliked video",
           alreadyLiked := false, alreadyUnliked := false,
           likeCount := some (likeCountOf db1 vid) }, db1)

/-- Response of `addComment`: status only (the body is just a message). -/
structure CommentResponse where
  status : Nat
  deriving DecidableEq

/-- part_003 lines 353-390.  Only players may comment (403); video id and
non-blank content are required (400); the comment row is inserted, and a
notification is written to the video owner when the commenter differs and
the join row (video and commenter's user row) exists. -/
def addComment (db : DB) (userId : Nat) (userRole : Role)
    (videoId : Option Nat) (content : Option String) : CommentResponse × DB :=
  if userRole != Role.player then
    ({ status := 403 }, db)
  else
    match videoId, content with
    | some vid, some c =>
      if jsTrim c = "" then ({ status := 400 }, db)
      else
        let joinRow : Option (Video × User) :=
          match findVideo db vid, findUser db userId with
          | some v, some u => some (v, u)
          | _, _ => none
        let db1 := { db with comments := db.comments ++ [⟨userId, vid, jsTrim c⟩] }
        let db2 :=
          match joinRow with
          | some (v, u) =>
            if v.player_id != userId then
              { db1 with notifications :=
                  db1.notifications ++ [⟨v.player_id, commentMessage u.name v.description⟩] }
            else db1
          | none => db1
        ({ status := 201 }, db2)
    | _, _ => ({ status := 400 }, db)

/-! ## Invitations (part_003 `updateInvitationStatus`, `sendInvitation`;
auth.controller.js `invitePlayer`, `cancelInvitation`) -/

/-- Parse the request's status string against
`validStatuses = ['accepted', 'declined']`. -/
def parseInvStatus (s : String) : Option InvStatus :=
  if s = "accepted" then some InvStatus.accepted
  else if s = "declined" then some InvStatus.declined
  else none

/-- Auto-increment id for a fresh `invitations` row. -/
def nextInvitationId (db : DB) : Nat :=
  (db.invitations.map Invitation.id).foldr max 0 + 1

/-- Generic response: HTTP status plus successor store. -/
structure OpResult where
  status : Nat
  db : DB
  deriving DecidableEq

/-- The join of part_003 lines 542-552: the invitation with the given id and
player, its tryout, and the tryout's scout user row. -/
def invitationJoin (db : DB) (invitationId playerId : Nat) :
    Option (Invitation × Tryout × User) :=
  match db.invitations.find? fun i => i.id == invitationId && i.player_id == playerId with
  | none => none
  | some i =>
    match db.tryouts.find? fun t => t.id == i.tryout_id with
    | none => none
    | some t =>
      match findUser db t.scout_id with
      | none => none
      | some u => some (i, t, u)

/-- part_003 lines 530-577.  Validates the target status string against
`['accepted', 'declined']` (400 otherwise), requires the joined invitation
row for (id, player) (404 otherwise), then unconditionally runs
`UPDATE invitations SET status = ? WHERE id = ?` and notifies the scout.
No check of the invitation's current status is made. -/
def updateInvitationStatus (db : DB) (playerId invitationId : Nat)
    (status : Option String) : OpResult :=
  match status.bind parseInvStatus with
  | none => { status := 400, db := db }
  | some newStatus =>
    match invitationJoin db invitationId playerId with
    | none => { status := 404, db := db }
    | some (_, t, u) =>
      let invitations' := db.invitations.map fun i =>
        if i.id == invitationId then { i with status := newStatus } else i
      let playerName := jsOr ((findUser db playerId).map User.name) "A player"
      let statusWord := if newStatus = InvStatus.accepted then "accepted" else "declined"
      let msg := playerName ++ " has " ++ statusWord
        ++ " your invitation to the tryout: " ++ t.name
      { status := 200,
        db := { db with invitations := invitations',
                        notifications := db.notifications ++ [⟨u.id, msg⟩] } }

/-- auth.controller.js lines 246-293 (`invitePlayer`, the scout invite
endpoint).  400 when either id is missing, 403 when the caller does not own
the tryout (join of the scout's user row with the tryout), 409 Conflict on a
duplicate (tryout, player) invitation with no write, otherwise inserts a
pending invitation and notifies the player with 201. -/
def invitePlayer (db : DB) (scoutId : Nat)
    (tryout_id player_id : Option Nat) : OpResult :=
  match tryout_id, player_id with
  | some tid, some pid =>
    let scoutAndTryout : Option (User × Tryout) :=
      match findUser db scoutId, db.tryouts.find? fun t => t.id == tid && t.scout_id == scoutId with
      | some u, some t => some (u, t)
      | _, _ => none
    match scoutAndTryout with
    | none => { status := 403, db := db }
    | some (u, t) =>
      if (db.invitations.find? fun i => i.tryout_id == tid && i.player_id == pid).isSome then
        { status := 409, db := db }
      else
        let newInv : Invitation := ⟨nextInvitationId db, tid, pid, InvStatus.pending⟩
        let msg := "You have received a new invitation from " ++ u.name
          ++ " for the tryout: " ++ t.name
        { status := 201,
          db := { db with invitations := db.invitations ++ [newInv],
                          notifications := db.notifications ++ [⟨pid, msg⟩] } }
  | _, _ => { status := 400, db := db }

/-- part_003 lines 965-997 (`sendInvitation`).  400 when either id is
missing, 403 when the tryout is not owned by the caller, **400** (message
"Invitation already sent") on a duplicate (tryout, player) pair with no
write, otherwise inserts a pending invitation and answers 200 with no
notification. -/
def sendInvitation (db : DB) (scoutId : Nat)
    (tryoutId playerId : Option Nat) : OpResult :=
  match tryoutId, playerId with
  | some tid, some pid =>
    if (db.tryouts.find? fun t => t.id == tid && t.scout_id == scoutId).isNone then
      { status := 403, db := db }
    else if (db.invitations.find? fun i => i.tryout_id == tid && i.player_id == pid).isSome then
      { status := 400, db := db }
    else
      let newInv : Invitation := ⟨nextInvitationId db, tid, pid, InvStatus.pending⟩
      { status := 200, db := { db with invitations := db.invitations ++ [newInv] } }
  | _, _ => { status := 400, db := db }

/-- The join of auth.controller.js lines 306-313: the invitation with the
given id whose tryout is owned by the calling scout, plus the invited
player's user row. -/
def cancelJoin (db : DB) (invitationId scoutId : Nat) :
    Option (Invitation × Tryout × User) :=
  match db.invitations.find? fun i => i.id == invitationId with
  | none => none
  | some i =>
    match db.tryouts.find? fun t => t.id == i.tryout_id && t.scout_id == scoutId with
    | none => none
    | some t =>
      match findUser db i.player_id with
      | none => none
      | some u => some (i, t, u)

/-- auth.controller.js lines 296-341 (`cancelInvitation`).  400 when the id
is missing, 404 when the joined row is absent or not owned, 400 with no
write when the invitation's status is not pending, otherwise deletes the
invitation row, notifies the invited player and answers 200. -/
def cancelInvitation (db : DB) (scoutId : Nat) (invitationId : Option Nat) : OpResult :=
  match invitationId with
  | none => { status := 400, db := db }
  | some iid =>
    match cancelJoin db iid scoutId with
    | none => { status := 404, db := db }
    | some (i, t, _) =>
      if i.status != InvStatus.pending then
        { status := 400, db := db }
      else
        let invitations' := db.invitations.filter fun j => !(j.id == iid)
        let msg := "Your invitation to the tryout \"" ++ t.name ++ "\" has been canceled"
        { status := 200,
          db := { db with invitations := invitations',
                          notifications := db.notifications ++ [⟨i.player_id, msg⟩] } }

/-! ## Identity (auth.controller.js `register`, `login`) -/

/-- JS falsiness of an optional string field: absent or empty. -/
def isBlank (s : Option String) : Bool :=
  match s with
  | none => true
  | some t => t = ""

/-- Auto-increment id for a fresh `users` row. -/
def nextUserId (db : DB) : Nat :=
  (db.users.map User.id).foldr max 0 + 1

/-- auth.controller.js lines 5-50.  The request's `role` is modelled already
parsed (`none` for a missing/falsy field).  Order as in the code: missing
fields give 400, then a password/confirm mismatch gives 400 — both before
any database access — then an existing email gives 409 Conflict with no
insert; otherwise the user row is inserted (the `users.status` column
default `active` is applied by the schema) and, when the role is player and
a date of birth was sent, a `player_profiles` row is created.  `hash` stands
for `bcrypt.hash`. -/
def register (hash : String → String) (db : DB)
    (name email password confirmPassword : Option String)
    (role : Option Role) (date_of_birth : Option String) : OpResult :=
  if isBlank name || isBlank email || isBlank password
      || role.isNone || isBlank confirmPassword then
    { status := 400, db := db }
  else if password != confirmPassword then
    { status := 400, db := db }
  else if (db.users.find? fun u => some u.email == email).isSome then
    { status := 409, db := db }
  else
    let uid := nextUserId db
    let newUser : User :=
      ⟨uid, (name.getD ""), (email.getD ""), hash (password.getD ""),
        role.getD Role.player, UserStatus.active⟩
    let db1 := { db with users := db.users ++ [newUser] }
    let db2 :=
      if role == some Role.player && !(isBlank date_of_birth) then
        { db1 with player_profiles := db1.player_profiles ++ [⟨uid, 0⟩] }
      else db1
    { status := 201, db := db2 }

/-- Response of `login`: HTTP status and, on success, the token payload
`{id, role}`. -/
structure LoginResponse where
  status : Nat
  tokenPayload : Option (Nat × Role)
  deriving DecidableEq

/-- auth.controller.js lines 53-98.  `compare` stands for `bcrypt.compare`
(submitted password against the stored hash).  An unknown email gives 401;
then — before any password comparison — a non-active account status gives
403; then a failed comparison gives 401; otherwise 200 with a token signed
over `{id, role}`. -/
def login (compare : String → String → Bool) (db : DB)
    (email password : String) : LoginResponse :=
  match db.users.find? fun u => u.email == email with
  | none => { status := 401, tokenPayload := none }
  | some user =>
    if user.status != UserStatus.active then
      { status := 403, tokenPayload := none }
    else if !(compare password user.password) then
      { status := 401, tokenPayload := none }
    else
      { status := 200, tokenPayload := some (user.id, user.role) }

/-! ## Media upload and deletion (upload.service.js, player.routes.js
`handleUploadErrors`, part_003 `uploadMedia` / `deleteVideo`,
part_004 admin `deleteVideo`) -/

/-- upload.service.js line 12: the mimetypes `fileFilter` accepts. -/
def allowedTypes : List String :=
  ["video/mp4", "video/webm", "image/jpeg", "image/png", "image/jpg", "image/webp"]

/-- upload.service.js line 26: `fileSize` limit of 20MB. -/
def uploadLimit : Nat := 20 * 1024 * 1024

/-- The uploaded file as multer presents it to the filter and limits. -/
structure UploadFile where
  originalname : String
  mimetype : String
  size : Nat
  deriving DecidableEq

/-- Outcome of `cloudinaryService.uploadBuffer`: the remote store returns a
secure URL and a public id, or the call throws.  (On a throw the controller
maps the error message onto 413/500 codes at part_003 lines 77-94; those
responses are all modelled as 500 here — no branch of the claims
distinguishes them — and none of them writes a row.) -/
inductive CloudOutcome
  | success (secure_url : String) (public_id : String)
  | failure
  deriving DecidableEq

/-- Result of the upload pipeline.  `remoteCalled` records whether
`cloudinaryService.uploadBuffer` was reached. -/
structure UploadResult where
  status : Nat
  remoteCalled : Bool
  db : DB
  deriving DecidableEq

/-- Auto-increment id for a fresh `videos` row. -/
def nextVideoId (db : DB) : Nat :=
  (db.videos.map Video.id).foldr max 0 + 1

/-- The `/player/upload` route (player.routes.js lines 336-355) composed
with multer (upload.service.js) and the controller (part_003 lines 9-96):
the role gate rejects non-players (403); multer's `fileFilter` rejects a
mimetype outside `allowedTypes`, which `handleUploadErrors` maps to 415;
the 20MB `fileSize` limit maps to 413; a missing file gives 400 — all
before any remote call.  Then `uploadMedia` infers the type from the
mimetype prefix (`image/*` → image, else video) and calls the remote store;
only on its success is the `videos` row inserted (201). -/
def uploadPipeline (db : DB) (userRole : Role) (playerId : Nat)
    (file : Option UploadFile) (description : Option String)
    (cloud : CloudOutcome) : UploadResult :=
  if userRole != Role.player then
    { status := 403, remoteCalled := false, db := db }
  else
    match file with
    | none => { status := 400, remoteCalled := false, db := db }
    | some f =>
      if !(allowedTypes.contains f.mimetype) then
        { status := 415, remoteCalled := false, db := db }
      else if f.size > uploadLimit then
        { status := 413, remoteCalled := false, db := db }
      else
        let mediaT := if f.mimetype.startsWith "image/" then MediaType.image
          else MediaType.video
        match cloud with
        | CloudOutcome.failure =>
          { status := 500, remoteCalled := true, db := db }
        | CloudOutcome.success url pid =>
          let v : Video :=
            ⟨nextVideoId db, playerId, url, some (jsOr description ""), mediaT, some pid⟩
          { status := 201, remoteCalled := true,
            db := { db with videos := db.videos ++ [v] } }

/-- part_003 lines 1074-1113 (`deleteVideo`, owner path).  404 when no video
with this id belongs to the caller; otherwise the Cloudinary deletion is
attempted inside try/catch — `remoteDeleteOk` records its outcome, which
never alters control flow — and the local row is deleted with 200. -/
def deleteVideoOwner (db : DB) (playerId videoId : Nat)
    (remoteDeleteOk : Bool) : OpResult :=
  match db.videos.find? fun v => v.id == videoId && v.player_id == playerId with
  | none => { status := 404, db := db }
  | some _ =>
    let videos' := db.videos.filter fun v => !(v.id == videoId)
    { status := 200, db := { db with videos := videos' } }

/-- part_004 lines 120-158 (admin `deleteVideo`).  404 when the video does
not exist; otherwise the Cloudinary deletion is attempted inside try/catch
(`remoteDeleteOk`, never altering control flow), the local row is deleted,
a DELETE system-log row is appended and 200 returned. -/
def deleteVideoAdmin (db : DB) (adminId videoId : Nat)
    (remoteDeleteOk : Bool) : OpResult :=
  match db.videos.find? fun v => v.id == videoId with
  | none => { status := 404, db := db }
  | some _ =>
    let videos' := db.videos.filter fun v => !(v.id == videoId)
    let logRow : SystemLogRow := ⟨adminId, "DELETE", "video", videoId⟩
    { status := 200,
      db := { db with videos := videos',
                      system_logs := db.system_logs ++ [logRow] } }

/-! ## Theorems -/

/-- The code's rating computation (part_003 lines 1224-1237) agrees with the
clamp formula written in the spec, for all integer inputs. -/
theorem computeRating_eq_specRating (m g a y r : Int) :
    computeRating m g a y r = specRating m g a y r := by
  unfold computeRating specRating clampQ
  split
  · ring_nf
  · rfl

/-- C1: for every call to `updatePerformanceStats` with all five fields
present as non-negative integers, the call succeeds and the rating persisted
onto every `player_profiles` row of the player equals
`clamp(((2*goals + assists - yellow_cards - 3*red_cards)/matches_played + 3)/6*4 + 1, 1, 5)`
when `matches_played > 0` and `1` when `matches_played = 0` (this is
`specRating`); in particular the input (10, 5, 3, 1, 0) yields exactly
19/5 = 3.80. -/
theorem updatePerformanceStats_persists_spec_rating (db : DB) (playerId : Nat)
    (m g a y r : Int) (hm : 0 ≤ m) (hg : 0 ≤ g) (ha : 0 ≤ a) (hy : 0 ≤ y) (hr : 0 ≤ r) :
    (updatePerformanceStats db playerId ⟨some m, some g, some a, some y, some r⟩).status = 200
    ∧ (∀ p ∈ (updatePerformanceStats db playerId
          ⟨some m, some g, some a, some y, some r⟩).db.player_profiles,
        p.user_id = playerId → p.rating = specRating m g a y r)
    ∧ computeRating 10 5 3 1 0 = 19/5 := by
  have h1 : decide (m < 0) = false := decide_eq_false (not_lt.mpr hm)
  have h2 : decide (g < 0) = false := decide_eq_false (not_lt.mpr hg)
  have h3 : decide (a < 0) = false := decide_eq_false (not_lt.mpr ha)
  have h4 : decide (y < 0) = false := decide_eq_false (not_lt.mpr hy)
  have h5 : decide (r < 0) = false := decide_eq_false (not_lt.mpr hr)
  refine ⟨?_, ?_, ?_⟩
  · simp [updatePerformanceStats, h1, h2, h3, h4, h5]
  · intro p hp hpid
    simp only [updatePerformanceStats, h1, h2, h3, h4, h5, Bool.or_self,
      Bool.or_false, Bool.false_or, if_neg, Bool.false_eq_true, not_false_iff,
      if_false] at hp
    rcases List.mem_map.mp hp with ⟨q, _, rfl⟩
    by_cases h : (q.user_id == playerId) = true
    · simp [h, computeRating_eq_specRating]
    · simp only [h, if_false, Bool.false_eq_true] at hpid ⊢
      exact absurd (beq_iff_eq.mpr hpid) (by simpa using h)
  · norm_num [computeRating]

/-- Witness for C1 at the spec's own example input. -/
theorem updatePerformanceStats_persists_spec_rating_witness :
    (updatePerformanceStats ⟨[], [], [], [], [], [], [], [], [⟨7, 0⟩], []⟩ 7
        ⟨some 10, some 5, some 3, some 1, some 0⟩).status = 200
    ∧ (∀ p ∈ (updatePerformanceStats ⟨[], [], [], [], [], [], [], [], [⟨7, 0⟩], []⟩ 7
          ⟨some 10, some 5, some 3, some 1, some 0⟩).db.player_profiles,
        p.user_id = 7 → p.rating = specRating 10 5 3 1 0)
    ∧ computeRating 10 5 3 1 0 = 19/5 :=
  updatePerformanceStats_persists_spec_rating ⟨[], [], [], [], [], [], [], [], [⟨7, 0⟩], []⟩ 7
    10 5 3 1 0 (by norm_num) (by norm_num) (by norm_num) (by norm_num) (by norm_num)

/-- Appending a like for the video bumps its filtered count by one. -/
theorem likeCount_append (ls : List Like) (u vid : Nat) :
    ((ls ++ [(⟨u, vid⟩ : Like)]).filter fun l => l.video_id == vid).length
      = (ls.filter fun l => l.video_id == vid).length + 1 := by
  simp [List.filter_append]

/-- Shape of a fresh (non-duplicate) like on an existing video: 201, the
inserted row, unchanged videos, and the reported count recomputed over the
successor store. -/
theorem likeVideo_fresh_fields (db : DB) (u vid : Nat) (v : Video)
    (hv : findVideo db vid = some v) (hl : findLike db u vid = none) :
    (likeVideo db u (some vid)).fst.status = 201
    ∧ (likeVideo db u (some vid)).fst.likeCount
        = some (likeCountOf (likeVideo db u (some vid)).snd vid)
    ∧ (likeVideo db u (some vid)).snd.likes = db.likes ++ [⟨u, vid⟩]
    ∧ (likeVideo db u (some vid)).snd.videos = db.videos := by
  simp only [likeVideo, hv, hl, Option.isSome_none, Bool.false_eq_true, if_false]
  cases hfu : findUser db u with
  | none => simp
  | some uu =>
    by_cases hown : (v.player_id != u) = true
    · simp [hown]
    · simp [hown]

/-- A like by the video's owner never touches `notifications`
(part_003 line 227: the insert happens, the notification branch does not). -/
theorem likeVideo_owner_no_notification (db : DB) (u vid : Nat) (v : Video)
    (hv : findVideo db vid = some v) (hown : v.player_id = u) :
    (likeVideo db u (some vid)).snd.notifications = db.notifications := by
  simp only [likeVideo, hv]
  by_cases hl : (findLike db u vid).isSome = true
  · simp [hl]
  · simp only [hl, Bool.false_eq_true, if_false]
    cases hfu : findUser db u with
    | none => simp
    | some uu =>
      have h : (v.player_id != u) = false := by simp [hown]
      simp [h]

/-- Store for the C2 scenario: Alice (1) and Bob (2); Bob owns video 10,
which Alice has already liked. -/
def dbAliceLiked : DB :=
  ⟨[⟨1, "Alice", "a@x.com", "h1", Role.player, UserStatus.active⟩,
    ⟨2, "Bob", "b@x.com", "h2", Role.player, UserStatus.active⟩],
   [⟨10, 2, "http://v", some "clip", MediaType.video, none⟩],
   [⟨1, 10⟩], [], [], [], [], [], [], []⟩

/-- Same store without the existing like. -/
def dbAliceFresh : DB :=
  ⟨[⟨1, "Alice", "a@x.com", "h1", Role.player, UserStatus.active⟩,
    ⟨2, "Bob", "b@x.com", "h2", Role.player, UserStatus.active⟩],
   [⟨10, 2, "http://v", some "clip", MediaType.video, none⟩],
   [], [], [], [], [], [], [], []⟩

/-- C2 counterexample: the duplicate-like (no-op) response carries **no**
like count.  With Alice (user 1) having already liked video 10, a second
like request returns success (200) and writes nothing, but its `likeCount`
field is `none` — the body is `{message, alreadyLiked}` only (part_003 line
211) — refuting the claim that both the fresh-like response and the no-op
response include the recomputed like count. -/
theorem likeVideo_duplicate_response_lacks_count :
    (likeVideo dbAliceLiked 1 (some 10)).fst.status = 200
    ∧ (likeVideo dbAliceLiked 1 (some 10)).snd.likes = [⟨1, 10⟩]
    ∧ (likeVideo dbAliceLiked 1 (some 10)).fst.likeCount = none :=
  ⟨rfl, rfl, rfl⟩

/-- C2 (amended): a duplicate like returns success without inserting a
second row and without changing the store, and liking the same video twice
increases both the stored and the last-reported like count by exactly 1 —
but only the fresh-like response includes the recomputed like count; the
duplicate (no-op) response includes none. -/
theorem likeVideo_idempotent_count (db : DB) (u vid : Nat) (v : Video)
    (hv : findVideo db vid = some v) (hl : findLike db u vid = none) :
    (likeVideo db u (some vid)).fst.status = 201
    ∧ (likeVideo db u (some vid)).fst.likeCount = some (likeCountOf db vid + 1)
    ∧ (likeVideo db u (some vid)).snd.likes = db.likes ++ [⟨u, vid⟩]
    ∧ (likeVideo (likeVideo db u (some vid)).snd u (some vid)).fst.status = 200
    ∧ (likeVideo (likeVideo db u (some vid)).snd u (some vid)).fst.alreadyLiked = true
    ∧ (likeVideo (likeVideo db u (some vid)).snd u (some vid)).snd
        = (likeVideo db u (some vid)).snd
    ∧ (likeVideo (likeVideo db u (some vid)).snd u (some vid)).fst.likeCount = none
    ∧ likeCountOf (likeVideo (likeVideo db u (some vid)).snd u (some vid)).snd vid
        = likeCountOf db vid + 1 := by
  obtain ⟨hs, hc, hlik, hvid⟩ := likeVideo_fresh_fields db u vid v hv hl
  have hcount : likeCountOf (likeVideo db u (some vid)).snd vid
      = likeCountOf db vid + 1 := by
    unfold likeCountOf
    rw [hlik]
    exact likeCount_append db.likes u vid
  have hv2 : findVideo (likeVideo db u (some vid)).snd vid = some v := by
    unfold findVideo at hv ⊢
    rw [hvid]
    exact hv
  have hsome : (findLike (likeVideo db u (some vid)).snd u vid).isSome = true := by
    unfold findLike
    rw [List.find?_isSome]
    exact ⟨⟨u, vid⟩, by rw [hlik]; simp, by simp⟩
  have hgen : ∀ d2 : DB, findVideo d2 vid = some v → (findLike d2 u vid).isSome = true →
      likeVideo d2 u (some vid)
        = ({ status := 200, message := "Already liked this video",
             alreadyLiked := true, alreadyUnliked := false, likeCount := none }, d2) := by
    intro d2 h1 h2
    simp only [likeVideo, h1, h2, if_true]
  have hdup := hgen (likeVideo db u (some vid)).snd hv2 hsome
  refine ⟨hs, by rw [hc, hcount], hlik, ?_, ?_, ?_, ?_, ?_⟩
  · rw [hdup]
  · rw [hdup]
  · rw [hdup]
  · rw [hdup]
  · rw [hdup]
    exact hcount

/-- Witness for C2 (amended): Alice likes Bob's video 10 twice starting
from `dbAliceFresh`. -/
theorem likeVideo_idempotent_count_witness :
    (likeVideo dbAliceFresh 1 (some 10)).fst.status = 201
    ∧ (likeVideo dbAliceFresh 1 (some 10)).fst.likeCount
        = some (likeCountOf dbAliceFresh 10 + 1)
    ∧ (likeVideo dbAliceFresh 1 (some 10)).snd.likes = dbAliceFresh.likes ++ [⟨1, 10⟩]
    ∧ (likeVideo (likeVideo dbAliceFresh 1 (some 10)).snd 1 (some 10)).fst.status = 200
    ∧ (likeVideo (likeVideo dbAliceFresh 1 (some 10)).snd 1 (some 10)).fst.alreadyLiked = true
    ∧ (likeVideo (likeVideo dbAliceFresh 1 (some 10)).snd 1 (some 10)).snd
        = (likeVideo dbAliceFresh 1 (some 10)).snd
    ∧ (likeVideo (likeVideo dbAliceFresh 1 (some 10)).snd 1 (some 10)).fst.likeCount = none
    ∧ likeCountOf (likeVideo (likeVideo dbAliceFresh 1 (some 10)).snd 1 (some 10)).snd 10
        = likeCountOf dbAliceFresh 10 + 1 :=
  likeVideo_idempotent_count dbAliceFresh 1 10
    ⟨10, 2, "http://v", some "clip", MediaType.video, none⟩ rfl rfl

/-- C10: liking or commenting on one's own video never creates a
Notification — when the actor is the video's owner, `notifications` is left
unchanged by both operations — while the like row (when not already liked)
and the comment row are still inserted. -/
theorem selfEngagement_creates_no_notification (db : DB) (vid : Nat) (v : Video)
    (content : String) (hv : findVideo db vid = some v)
    (hl : findLike db v.player_id vid = none) (hc : jsTrim content ≠ "") :
    (likeVideo db v.player_id (some vid)).snd.notifications = db.notifications
    ∧ (likeVideo db v.player_id (some vid)).snd.likes = db.likes ++ [⟨v.player_id, vid⟩]
    ∧ (addComment db v.player_id Role.player (some vid) (some content)).snd.notifications
        = db.notifications
    ∧ (addComment db v.player_id Role.player (some vid) (some content)).snd.comments
        = db.comments ++ [⟨v.player_id, vid, jsTrim content⟩] := by
  have hcom : (addComment db v.player_id Role.player (some vid) (some content)).snd.notifications
        = db.notifications
      ∧ (addComment db v.player_id Role.player (some vid) (some content)).snd.comments
        = db.comments ++ [⟨v.player_id, vid, jsTrim content⟩] := by
    have hrole : (Role.player != Role.player) = false := by rfl
    simp only [addComment, hrole, Bool.false_eq_true, if_false]
    rw [if_neg hc]
    simp only [hv]
    cases hfu : findUser db v.player_id with
    | none => simp
    | some uu =>
      have h : (v.player_id != v.player_id) = false := by simp
      simp [h]
  exact ⟨likeVideo_owner_no_notification db v.player_id vid v hv rfl,
    (likeVideo_fresh_fields db v.player_id vid v hv hl).2.2.1, hcom.1, hcom.2⟩

/-- Witness for C10: Bob (2) likes and comments on his own video 10. -/
theorem selfEngagement_creates_no_notification_witness :
    (likeVideo dbAliceFresh 2 (some 10)).snd.notifications = dbAliceFresh.notifications
    ∧ (likeVideo dbAliceFresh 2 (some 10)).snd.likes = dbAliceFresh.likes ++ [⟨2, 10⟩]
    ∧ (addComment dbAliceFresh 2 Role.player (some 10) (some "nice")).snd.notifications
        = dbAliceFresh.notifications
    ∧ (addComment dbAliceFresh 2 Role.player (some 10) (some "nice")).snd.comments
        = dbAliceFresh.comments ++ [⟨2, 10, jsTrim "nice"⟩] :=
  selfEngagement_creates_no_notification dbAliceFresh 10
    ⟨10, 2, "http://v", some "clip", MediaType.video, none⟩ "nice" rfl rfl (by decide)

/-- Store for the C3 counterexample: Sam (3) is a scout owning tryout 1;
Bob (2) holds invitation 1 for it, already accepted. -/
def dbInvAccepted : DB :=
  ⟨[⟨2, "Bob", "b@x.com", "h2", Role.player, UserStatus.active⟩,
    ⟨3, "Sam", "s@x.com", "h3", Role.scout, UserStatus.active⟩],
   [], [], [], [⟨1, 1, 2, InvStatus.accepted⟩], [⟨1, 3, "Trial Day", "Cairo"⟩],
   [], [], [], []⟩

/-- C3 counterexample: accepted is **not** terminal.  Invitation 1 already
has status accepted, yet a further status update by the invited player to
"declined" succeeds (200) and overwrites the status, refuting the claim
that no subsequent status-update operation changes an accepted/declined
invitation again. -/
theorem updateInvitationStatus_overwrites_accepted :
    (updateInvitationStatus dbInvAccepted 2 1 (some "declined")).status = 200
    ∧ (updateInvitationStatus dbInvAccepted 2 1 (some "declined")).db.invitations
        = [⟨1, 1, 2, InvStatus.declined⟩] :=
  ⟨rfl, rfl⟩

/-- C3 (amended): the status-update operation validates only that the target
status is accepted or declined (400 otherwise, store unchanged) and that the
invitation belongs to the calling player (joined row present); it then
overwrites the status unconditionally, without inspecting the current
status, so pending → {accepted, declined} is permitted but accepted and
declined are not terminal. -/
theorem updateInvitationStatus_unconditional_overwrite (db : DB)
    (playerId invitationId : Nat) (s : String) (ns : InvStatus)
    (inv : Invitation) (t : Tryout) (u : User)
    (hs : parseInvStatus s = some ns)
    (hj : invitationJoin db invitationId playerId = some (inv, t, u)) :
    (updateInvitationStatus db playerId invitationId (some s)).status = 200
    ∧ (updateInvitationStatus db playerId invitationId (some s)).db.invitations
        = db.invitations.map (fun i => if i.id == invitationId then { i with status := ns } else i)
    ∧ (∀ i ∈ (updateInvitationStatus db playerId invitationId (some s)).db.invitations,
        i.id = invitationId → i.status = ns)
    ∧ (∀ s' : Option String, s'.bind parseInvStatus = none →
        updateInvitationStatus db playerId invitationId s' = { status := 400, db := db }) := by
  have hbind : (some s).bind parseInvStatus = some ns := hs
  refine ⟨?_, ?_, ?_, ?_⟩
  · simp only [updateInvitationStatus, hbind, hj]
  · simp only [updateInvitationStatus, hbind, hj]
  · intro i hi hid
    simp only [updateInvitationStatus, hbind, hj] at hi
    rcases List.mem_map.mp hi with ⟨q, _, rfl⟩
    by_cases h : (q.id == invitationId) = true
    · simp [h]
    · simp only [h, Bool.false_eq_true, if_false] at hid ⊢
      exact absurd (beq_iff_eq.mpr hid) (by simpa using h)
  · intro s' h
    simp only [updateInvitationStatus, h]

/-- Witness for C3 (amended), reusing the accepted-invitation store. -/
theorem updateInvitationStatus_unconditional_overwrite_witness :
    (updateInvitationStatus dbInvAccepted 2 1 (some "declined")).status = 200
    ∧ (updateInvitationStatus dbInvAccepted 2 1 (some "declined")).db.invitations
        = dbInvAccepted.invitations.map
            (fun i => if i.id == 1 then { i with status := InvStatus.declined } else i)
    ∧ (∀ i ∈ (updateInvitationStatus dbInvAccepted 2 1 (some "declined")).db.invitations,
        i.id = 1 → i.status = InvStatus.declined)
    ∧ (∀ s' : Option String, s'.bind parseInvStatus = none →
        updateInvitationStatus dbInvAccepted 2 1 s'
          = { status := 400, db := dbInvAccepted }) :=
  updateInvitationStatus_unconditional_overwrite dbInvAccepted 2 1 "declined"
    InvStatus.declined ⟨1, 1, 2, InvStatus.accepted⟩ ⟨1, 3, "Trial Day", "Cairo"⟩
    ⟨3, "Sam", "s@x.com", "h3", Role.scout, UserStatus.active⟩ rfl rfl

/-- Store for C4: Sam (3) owns tryout 1; Bob (2) already invited (pending). -/
def dbInvPending : DB :=
  ⟨[⟨2, "Bob", "b@x.com", "h2", Role.player, UserStatus.active⟩,
    ⟨3, "Sam", "s@x.com", "h3", Role.scout, UserStatus.active⟩],
   [], [], [], [⟨1, 1, 2, InvStatus.pending⟩], [⟨1, 3, "Trial Day", "Cairo"⟩],
   [], [], [], []⟩

/-- C4 counterexample: the player-routes send-invitation operation answers
**400** ("Invitation already sent", part_003 line 984), not 409 Conflict, on
a duplicate (tryout, player) pair, refuting the claim that both invite
paths fail with Conflict (409).  (No row is inserted, as the claim says.) -/
theorem sendInvitation_duplicate_returns_400 :
    (sendInvitation dbInvPending 3 (some 1) (some 2)).status = 400
    ∧ (sendInvitation dbInvPending 3 (some 1) (some 2)).status ≠ 409
    ∧ (sendInvitation dbInvPending 3 (some 1) (some 2)).db = dbInvPending :=
  ⟨rfl, by decide, rfl⟩

/-- C4 (amended): when an Invitation row for (tryout, player) already
exists, the scout invite operation (`invitePlayer`) fails with 409 Conflict
and the send-invitation operation (`sendInvitation`) fails with 400; neither
inserts a row — the store is unchanged, so the set of Invitation rows for
the pair is preserved (exactly one row remains if exactly one existed). -/
theorem duplicate_invitation_no_insert (db : DB) (sid tid pid : Nat)
    (u : User) (t : Tryout)
    (hu : findUser db sid = some u)
    (ht : db.tryouts.find? (fun x => x.id == tid && x.scout_id == sid) = some t)
    (hdup : (db.invitations.find? fun i => i.tryout_id == tid && i.player_id == pid).isSome
      = true) :
    invitePlayer db sid (some tid) (some pid) = { status := 409, db := db }
    ∧ sendInvitation db sid (some tid) (some pid) = { status := 400, db := db }
    ∧ ((invitePlayer db sid (some tid) (some pid)).db.invitations.filter
          fun i => i.tryout_id == tid && i.player_id == pid)
        = db.invitations.filter (fun i => i.tryout_id == tid && i.player_id == pid)
    ∧ ((sendInvitation db sid (some tid) (some pid)).db.invitations.filter
          fun i => i.tryout_id == tid && i.player_id == pid)
        = db.invitations.filter (fun i => i.tryout_id == tid && i.player_id == pid) := by
  have hNone : (db.tryouts.find? fun x => x.id == tid && x.scout_id == sid).isNone = false := by
    rw [ht]; rfl
  have h1 : invitePlayer db sid (some tid) (some pid) = { status := 409, db := db } := by
    simp only [invitePlayer, hu, ht, hdup, if_true]
  have h2 : sendInvitation db sid (some tid) (some pid) = { status := 400, db := db } := by
    simp only [sendInvitation, hNone, Bool.false_eq_true, if_false, hdup, if_true]
  exact ⟨h1, h2, by rw [h1], by rw [h2]⟩

/-- Witness for C4 (amended) on the pending-invitation store. -/
theorem duplicate_invitation_no_insert_witness :
    invitePlayer dbInvPending 3 (some 1) (some 2) = { status := 409, db := dbInvPending }
    ∧ sendInvitation dbInvPending 3 (some 1) (some 2) = { status := 400, db := dbInvPending }
    ∧ ((invitePlayer dbInvPending 3 (some 1) (some 2)).db.invitations.filter
          fun i => i.tryout_id == 1 && i.player_id == 2)
        = dbInvPending.invitations.filter (fun i => i.tryout_id == 1 && i.player_id == 2)
    ∧ ((sendInvitation dbInvPending 3 (some 1) (some 2)).db.invitations.filter
          fun i => i.tryout_id == 1 && i.player_id == 2)
        = dbInvPending.invitations.filter (fun i => i.tryout_id == 1 && i.player_id == 2) :=
  duplicate_invitation_no_insert dbInvPending 3 1 2
    ⟨3, "Sam", "s@x.com", "h3", Role.scout, UserStatus.active⟩
    ⟨1, 3, "Trial Day", "Cairo"⟩ rfl rfl rfl

/-- C5: for an invitation joined to the calling scout, cancelling fails with
400 and leaves the store unchanged when the status is accepted or declined
(not pending), and succeeds when pending: 200, the Invitation row deleted,
and a notification appended for the invited player. -/
theorem cancelInvitation_pending_only (db : DB) (sid iid : Nat)
    (inv : Invitation) (t : Tryout) (u : User)
    (hj : cancelJoin db iid sid = some (inv, t, u)) :
    (inv.status ≠ InvStatus.pending →
        cancelInvitation db sid (some iid) = { status := 400, db := db })
    ∧ (inv.status = InvStatus.pending →
        (cancelInvitation db sid (some iid)).status = 200
        ∧ (cancelInvitation db sid (some iid)).db.invitations
            = db.invitations.filter (fun j => !(j.id == iid))
        ∧ (cancelInvitation db sid (some iid)).db.notifications
            = db.notifications ++ [⟨inv.player_id,
                "Your invitation to the tryout \"" ++ t.name ++ "\" has been canceled"⟩]) := by
  constructor
  · intro h
    have hb : (inv.status != InvStatus.pending) = true := bne_iff_ne.mpr h
    simp only [cancelInvitation, hj, hb, if_true]
  · intro h
    have hb : (inv.status != InvStatus.pending) = false := by simp [h]
    simp only [cancelInvitation, hj, hb, Bool.false_eq_true, if_false]
    exact ⟨trivial, trivial, trivial⟩

/-- Witness for C5 on the pending-invitation store (scout Sam cancels
invitation 1). -/
theorem cancelInvitation_pending_only_witness :
    ((⟨1, 1, 2, InvStatus.pending⟩ : Invitation).status ≠ InvStatus.pending →
        cancelInvitation dbInvPending 3 (some 1) = { status := 400, db := dbInvPending })
    ∧ ((⟨1, 1, 2, InvStatus.pending⟩ : Invitation).status = InvStatus.pending →
        (cancelInvitation dbInvPending 3 (some 1)).status = 200
        ∧ (cancelInvitation dbInvPending 3 (some 1)).db.invitations
            = dbInvPending.invitations.filter (fun j => !(j.id == 1))
        ∧ (cancelInvitation dbInvPending 3 (some 1)).db.notifications
            = dbInvPending.notifications ++ [⟨2,
                "Your invitation to the tryout \"" ++ "Trial Day" ++ "\" has been canceled"⟩]) :=
  cancelInvitation_pending_only dbInvPending 3 1 ⟨1, 1, 2, InvStatus.pending⟩
    ⟨1, 3, "Trial Day", "Cairo"⟩ ⟨2, "Bob", "b@x.com", "h2", Role.player, UserStatus.active⟩ rfl

/-- C6: a mimetype outside the multer allow-list is rejected with 415 and an
oversized (but supported) payload with 413, in both cases before any remote
storage call (`remoteCalled = false`) and with the store unchanged (no local
record); on the success path the stored media type is `image` exactly when
the declared mimetype starts with `image/` and `video` otherwise. -/
theorem uploadPipeline_rejects_before_remote (db : DB) (pid : Nat) (f : UploadFile)
    (d : Option String) (cloud : CloudOutcome) (url cpid : String) :
    (allowedTypes.contains f.mimetype = false →
        uploadPipeline db Role.player pid (some f) d cloud
          = { status := 415, remoteCalled := false, db := db })
    ∧ (allowedTypes.contains f.mimetype = true → uploadLimit < f.size →
        uploadPipeline db Role.player pid (some f) d cloud
          = { status := 413, remoteCalled := false, db := db })
    ∧ (allowedTypes.contains f.mimetype = true → ¬ uploadLimit < f.size →
        (uploadPipeline db Role.player pid (some f) d
            (CloudOutcome.success url cpid)).status = 201
        ∧ (uploadPipeline db Role.player pid (some f) d
            (CloudOutcome.success url cpid)).remoteCalled = true
        ∧ (uploadPipeline db Role.player pid (some f) d
            (CloudOutcome.success url cpid)).db.videos
          = db.videos ++ [⟨nextVideoId db, pid, url, some (jsOr d ""),
              (if f.mimetype.startsWith "image/" then MediaType.image else MediaType.video),
              some cpid⟩]
        ∧ ((if f.mimetype.startsWith "image/" then MediaType.image else MediaType.video)
              = MediaType.image ↔ f.mimetype.startsWith "image/" = true))
    ∧ (allowedTypes.contains f.mimetype = true → ¬ uploadLimit < f.size →
        uploadPipeline db Role.player pid (some f) d CloudOutcome.failure
          = { status := 500, remoteCalled := true, db := db }) := by
  have hrole : (Role.player != Role.player) = false := by rfl
  refine ⟨?_, ?_, ?_, ?_⟩
  · intro hmt
    have hmem : ¬ f.mimetype ∈ allowedTypes := by simpa using hmt
    simp [uploadPipeline, hrole, hmem]
  · intro hmt hsz
    have hmem : f.mimetype ∈ allowedTypes := by simpa using hmt
    simp [uploadPipeline, hrole, hmem, hsz]
  · intro hmt hsz
    have hmem : f.mimetype ∈ allowedTypes := by simpa using hmt
    refine ⟨?_, ?_, ?_, ?_⟩
    · simp [uploadPipeline, hrole, hmem, hsz]
    · simp [uploadPipeline, hrole, hmem, hsz]
    · simp [uploadPipeline, hrole, hmem, hsz]
    · cases h : f.mimetype.startsWith "image/" with
      | true => simp [h]
      | false => simp [h]
  · intro hmt hsz
    have hmem : f.mimetype ∈ allowedTypes := by simpa using hmt
    simp [uploadPipeline, hrole, hmem, hsz]

/-- Witness for C6: a 100-byte PNG upload by player 1 into the empty store
(remote success), plus the rejection branches instantiated vacuously or
concretely by the theorem application. -/
theorem uploadPipeline_rejects_before_remote_witness :
    (allowedTypes.contains "image/png" = false →
        uploadPipeline ⟨[], [], [], [], [], [], [], [], [], []⟩ Role.player 1
            (some ⟨"p.png", "image/png", 100⟩) none CloudOutcome.failure
          = { status := 415, remoteCalled := false,
              db := ⟨[], [], [], [], [], [], [], [], [], []⟩ })
    ∧ (allowedTypes.contains "image/png" = true → uploadLimit < 100 →
        uploadPipeline ⟨[], [], [], [], [], [], [], [], [], []⟩ Role.player 1
            (some ⟨"p.png", "image/png", 100⟩) none CloudOutcome.failure
          = { status := 413, remoteCalled := false,
              db := ⟨[], [], [], [], [], [], [], [], [], []⟩ })
    ∧ (allowedTypes.contains "image/png" = true → ¬ uploadLimit < 100 →
        (uploadPipeline ⟨[], [], [], [], [], [], [], [], [], []⟩ Role.player 1
            (some ⟨"p.png", "image/png", 100⟩) none
            (CloudOutcome.success "http://r" "pub1")).status = 201
        ∧ (uploadPipeline ⟨[], [], [], [], [], [], [], [], [], []⟩ Role.player 1
            (some ⟨"p.png", "image/png", 100⟩) none
            (CloudOutcome.success "http://r" "pub1")).remoteCalled = true
        ∧ (uploadPipeline ⟨[], [], [], [], [], [], [], [], [], []⟩ Role.player 1
            (some ⟨"p.png", "image/png", 100⟩) none
            (CloudOutcome.success "http://r" "pub1")).db.videos
          = (⟨[], [], [], [], [], [], [], [], [], []⟩ : DB).videos
            ++ [⟨nextVideoId ⟨[], [], [], [], [], [], [], [], [], []⟩, 1, "http://r",
                some (jsOr none ""),
                (if ("image/png").startsWith "image/" then MediaType.image else MediaType.video),
                some "pub1"⟩]
        ∧ ((if ("image/png").startsWith "image/" then MediaType.image else MediaType.video)
              = MediaType.image ↔ ("image/png").startsWith "image/" = true))
    ∧ (allowedTypes.contains "image/png" = true → ¬ uploadLimit < 100 →
        uploadPipeline ⟨[], [], [], [], [], [], [], [], [], []⟩ Role.player 1
            (some ⟨"p.png", "image/png", 100⟩) none CloudOutcome.failure
          = { status := 500, remoteCalled := true,
              db := ⟨[], [], [], [], [], [], [], [], [], []⟩ }) :=
  uploadPipeline_rejects_before_remote ⟨[], [], [], [], [], [], [], [], [], []⟩ 1
    ⟨"p.png", "image/png", 100⟩ none CloudOutcome.failure "http://r" "pub1"

/-- C7: a registration whose email already belongs to an existing user fails
with 409 Conflict and changes nothing (no new User row), and any request
with a missing required field or with password ≠ confirmPassword fails with
400 before any database write (store unchanged). -/
theorem register_conflict_and_validation (hash : String → String) (db : DB)
    (name email password confirmPassword : Option String)
    (role : Option Role) (dob : Option String)
    (hn : isBlank name = false) (he : isBlank email = false)
    (hp : isBlank password = false) (hr : role.isNone = false)
    (hcp : isBlank confirmPassword = false)
    (hpm : password = confirmPassword)
    (hdup : (db.users.find? fun u => some u.email == email).isSome = true) :
    register hash db name email password confirmPassword role dob
      = { status := 409, db := db }
    ∧ (∀ n' e' p' c' : Option String, ∀ r' : Option Role, ∀ d' : Option String,
        (isBlank n' || isBlank e' || isBlank p' || Option.isNone r' || isBlank c') = true →
        register hash db n' e' p' c' r' d' = { status := 400, db := db })
    ∧ (∀ p' c' : Option String, isBlank p' = false → isBlank c' = false → p' ≠ c' →
        register hash db name email p' c' role dob = { status := 400, db := db }) := by
  refine ⟨?_, ?_, ?_⟩
  · have hne : (password != confirmPassword) = false := by simp [hpm]
    simp [register, hn, he, hp, hr, hcp, hne, hdup]
  · intro n' e' p' c' r' d' h
    simp [register, h]
  · intro p' c' hp' hc' hne
    have hb : (p' != c') = true := bne_iff_ne.mpr hne
    simp [register, hn, he, hp', hr, hc', hb]

/-- Store for C7 and C9: Carol (5) exists with email c&#64;x.com but her
account is suspended. -/
def dbCarol : DB :=
  ⟨[⟨5, "Carol", "c@x.com", "hashedpw", Role.player, UserStatus.suspended⟩],
   [], [], [], [], [], [], [], [], []⟩

/-- Witness for C7: re-registering Carol's email fails with 409. -/
theorem register_conflict_and_validation_witness :
    register (fun s => s) dbCarol (some "Carol") (some "c@x.com") (some "pw")
        (some "pw") (some Role.player) none = { status := 409, db := dbCarol }
    ∧ (∀ n' e' p' c' : Option String, ∀ r' : Option Role, ∀ d' : Option String,
        (isBlank n' || isBlank e' || isBlank p' || Option.isNone r' || isBlank c') = true →
        register (fun s => s) dbCarol n' e' p' c' r' d' = { status := 400, db := dbCarol })
    ∧ (∀ p' c' : Option String, isBlank p' = false → isBlank c' = false → p' ≠ c' →
        register (fun s => s) dbCarol (some "Carol") (some "c@x.com") p' c'
            (some Role.player) none = { status := 400, db := dbCarol }) :=
  register_conflict_and_validation (fun s => s) dbCarol (some "Carol") (some "c@x.com")
    (some "pw") (some "pw") (some Role.player) none rfl rfl rfl rfl rfl rfl rfl

/-- C8: for a video deletion by its owner or by an admin, the outcome of the
remote storage deletion call is irrelevant: with the call failing
(`remoteDeleteOk = false`) the result is identical to the success case, the
response is 200, and the local Video row is deleted either way. -/
theorem deleteVideo_remote_failure_nonfatal (db : DB) (pid aid vid : Nat)
    (v w : Video)
    (hown : db.videos.find? (fun x => x.id == vid && x.player_id == pid) = some v)
    (hex : db.videos.find? (fun x => x.id == vid) = some w) :
    deleteVideoOwner db pid vid false = deleteVideoOwner db pid vid true
    ∧ (deleteVideoOwner db pid vid false).status = 200
    ∧ (deleteVideoOwner db pid vid false).db.videos
        = db.videos.filter (fun x => !(x.id == vid))
    ∧ deleteVideoAdmin db aid vid false = deleteVideoAdmin db aid vid true
    ∧ (deleteVideoAdmin db aid vid false).status = 200
    ∧ (deleteVideoAdmin db aid vid false).db.videos
        = db.videos.filter (fun x => !(x.id == vid)) := by
  refine ⟨rfl, ?_, ?_, rfl, ?_, ?_⟩
  · simp [deleteVideoOwner, hown]
  · simp [deleteVideoOwner, hown]
  · simp [deleteVideoAdmin, hex]
  · simp [deleteVideoAdmin, hex]

/-- Store for C8: Bob (2) owns video 10; admin 9 also acts on it. -/
def dbWithVideo : DB :=
  ⟨[⟨2, "Bob", "b@x.com", "h2", Role.player, UserStatus.active⟩],
   [⟨10, 2, "http://v", some "clip", MediaType.video, some "pub10"⟩],
   [], [], [], [], [], [], [], []⟩

/-- Witness for C8: deleting video 10 with a failing remote delete. -/
theorem deleteVideo_remote_failure_nonfatal_witness :
    deleteVideoOwner dbWithVideo 2 10 false = deleteVideoOwner dbWithVideo 2 10 true
    ∧ (deleteVideoOwner dbWithVideo 2 10 false).status = 200
    ∧ (deleteVideoOwner dbWithVideo 2 10 false).db.videos
        = dbWithVideo.videos.filter (fun x => !(x.id == 10))
    ∧ deleteVideoAdmin dbWithVideo 9 10 false = deleteVideoAdmin dbWithVideo 9 10 true
    ∧ (deleteVideoAdmin dbWithVideo 9 10 false).status = 200
    ∧ (deleteVideoAdmin dbWithVideo 9 10 false).db.videos
        = dbWithVideo.videos.filter (fun x => !(x.id == 10)) :=
  deleteVideo_remote_failure_nonfatal dbWithVideo 2 9 10
    ⟨10, 2, "http://v", some "clip", MediaType.video, some "pub10"⟩
    ⟨10, 2, "http://v", some "clip", MediaType.video, some "pub10"⟩ rfl rfl

/-- C9: when the submitted email belongs to a user whose status is not
active, login answers 403 Forbidden for **every** password and every bcrypt
comparison oracle — the status check runs before the password comparison,
so the outcome is identical for correct and incorrect passwords. -/
theorem login_inactive_forbidden_regardless_of_password (db : DB)
    (email : String) (u : User)
    (hfind : db.users.find? (fun x => x.email == email) = some u)
    (hstatus : u.status ≠ UserStatus.active) :
    (∀ compare : String → String → Bool, ∀ password : String,
        login compare db email password = { status := 403, tokenPayload := none })
    ∧ (∀ compare : String → String → Bool, ∀ p1 p2 : String,
        login compare db email p1 = login compare db email p2) := by
  have hb : (u.status != UserStatus.active) = true := bne_iff_ne.mpr hstatus
  constructor
  · intro compare password
    simp only [login, hfind, hb, if_true]
  · intro compare p1 p2
    simp only [login, hfind, hb, if_true]

/-- Witness for C9: suspended Carol gets 403 with the stored password and
with a wrong one, under an equality comparison oracle. -/
theorem login_inactive_forbidden_witness :
    login (fun a b => a == b) dbCarol "c@x.com" "hashedpw"
        = { status := 403, tokenPayload := none }
    ∧ login (fun a b => a == b) dbCarol "c@x.com" "wrongpw"
        = { status := 403, tokenPayload := none } :=
  ⟨(login_inactive_forbidden_regardless_of_password dbCarol "c@x.com"
      ⟨5, "Carol", "c@x.com", "hashedpw", Role.player, UserStatus.suspended⟩
      rfl (by decide)).1 (fun a b => a == b) "hashedpw",
   (login_inactive_forbidden_regardless_of_password dbCarol "c@x.com"
      ⟨5, "Carol", "c@x.com", "hashedpw", Role.player, UserStatus.suspended⟩
      rfl (by decide)).1 (fun a b => a == b) "wrongpw"⟩

end Pharaohs
